import Mathlib

/-! GeneralizedSelfAdjointEigOp

A shallow embedding of `tensorflow/core/kernels/generalized_self_adjoint_eig_op.cc`:
the three overrides of the kernel (`GetOutputMatrixShapes`,
`ValidateInputMatrixShapes`, `ComputeMatrix`) as state-passing functions, and the
properties of the shape contract, of validation and of the per-pair computation.

Conventions of the embedding:

* an index into a vector (`v[i]`, `v->at(i)`) outside its bounds has no defined
  result, so the functions that index return `Option` and `none` stands for it;
* `OP_REQUIRES(ctx, cond, status)` is `if (!cond) { ctx->CtxFailure(status); return; }`;
* the Eigen solver is a library outside the kernel, so its constructor is a
  parameter of `ComputeMatrix`; the scalar type is a type parameter;
* the kernel state carries two ghost fields, the options of every solver that was
  constructed and the indices of every output that was assigned, so that
  "no solver was built" and "no buffer was written" are statements about the state.
-/

namespace tensorflow

/-! ## Shapes -/

/-- A `TensorShape`: the sizes of its dimensions, outermost first. -/
structure TensorShape where
  dim_sizes : List Nat
deriving DecidableEq, Repr

/-- The rank, `TensorShape::dims()`. -/
def TensorShape.dims (s : TensorShape) : Nat :=
  s.dim_sizes.length

/-- The size of dimension `d`, `TensorShape::dim_size(d)`; undefined when `d` is not a
dimension of the shape. -/
def TensorShape.dim_size (s : TensorShape) (d : Nat) : Option Nat :=
  s.dim_sizes[d]?

/-- The number of elements of a tensor of this shape, `TensorShape::num_elements()`. -/
def TensorShape.num_elements (s : TensorShape) : Nat :=
  s.dim_sizes.prod

/-- Modelled from the spec: `TensorShapeUtils::IsSquareMatrix` is declared in
`tensor_shape.h`, outside the kernel file. Section 4.1 asks that "the shared shape is
square (rows == columns)"; a matrix shape has two dimensions. -/
def TensorShapeUtils.IsSquareMatrix (shape : TensorShape) : Bool :=
  shape.dims == 2 && shape.dim_size 0 == shape.dim_size 1

/-! ## Statuses and the kernel context -/

/-- Modelled from the spec: the declaration of the status codes is outside the kernel
file. Section 7 names two error kinds, `InvalidArgument` and `NumericalFailure`. -/
inductive ErrorKind where
  | InvalidArgument
  | NumericalFailure
deriving DecidableEq, Repr

/-- One argument handed to an `errors::` constructor: a string literal or a number. -/
inductive MsgArg where
  | str (s : String)
  | num (n : Nat)
deriving DecidableEq, Repr

/-- A non-OK `Status`: its kind and the arguments its description is built from, in the
order the kernel passes them. -/
structure Status where
  code : ErrorKind
  args : List MsgArg
deriving DecidableEq, Repr

/-- The constructor `errors::InvalidArgument(args...)`. -/
def errors.InvalidArgument (args : List MsgArg) : Status :=
  { code := ErrorKind.InvalidArgument, args := args }

/-- The part of `OpKernelContext` the kernel touches: the statuses handed to
`CtxFailure`, oldest first. -/
structure OpKernelContext where
  failures : List Status
deriving DecidableEq, Repr

/-- The call `ctx->CtxFailure(s)`, which records the failure `s` on the context. -/
def OpKernelContext.CtxFailure (ctx : OpKernelContext) (s : Status) : OpKernelContext :=
  { failures := ctx.failures ++ [s] }

/-! ## Matrices and the Eigen solver -/

/-- A dense matrix (`Base::Matrix`, and the maps over tensor buffers): its two extents
and its coefficients. -/
structure Matrix (Scalar : Type) where
  rows : Nat
  cols : Nat
  coeffs : List Scalar
deriving DecidableEq, Repr

/-- The enumeration `Eigen::ComputationInfo`. -/
inductive ComputationInfo where
  | Success
  | NumericalIssue
  | NoConvergence
  | InvalidInput
deriving DecidableEq, Repr

/-- The two decomposition options the kernel chooses between. -/
inductive DecompositionOptions where
  | ComputeEigenvectors
  | EigenvaluesOnly
deriving DecidableEq, Repr

/-- What the kernel reads from a constructed `Eigen::GeneralizedSelfAdjointEigenSolver`:
`info()`, `eigenvalues()` and `eigenvectors()`. -/
structure GeneralizedSelfAdjointEigenSolver (Scalar : Type) where
  info : ComputationInfo
  eigenvalues : Matrix Scalar
  eigenvectors : Matrix Scalar
deriving DecidableEq, Repr

/-- The constructor of the solver, `eig(matA, matB, options)`: a library function, taken
as a parameter. -/
abbrev SolverConstructor (Scalar : Type) : Type :=
  Matrix Scalar → Matrix Scalar → DecompositionOptions →
    GeneralizedSelfAdjointEigenSolver Scalar

/-- The state one call of `ComputeMatrix` acts on: the kernel context, the output
buffers, and two ghost fields, the options of each solver constructed so far and the
indices of each output assigned so far. -/
structure KernelState (Scalar : Type) where
  context : OpKernelContext
  outputs : List (Matrix Scalar)
  solves : List DecompositionOptions
  writes : List Nat
deriving DecidableEq, Repr

/-- The assignment `outputs->at(i) = value`: undefined when `i` is not an index of
`outputs`, otherwise buffer `i` holds `value` and the write is logged. -/
def KernelState.assignOutput {Scalar : Type} (st : KernelState Scalar) (i : Nat)
    (value : Matrix Scalar) : Option (KernelState Scalar) :=
  if i < st.outputs.length then
    some { st with outputs := st.outputs.set i value, writes := st.writes ++ [i] }
  else
    none

/-! ## The kernel -/

/-- The override `GetOutputMatrixShapes`, for a kernel built with attribute `compute_v_`. -/
def GetOutputMatrixShapes (compute_v_ : Bool) (input_matrix_shapes : List TensorShape) :
    Option (List TensorShape) := do
  let shape0 ← input_matrix_shapes[0]?
  let n ← shape0.dim_size 0
  if compute_v_ then
    return [TensorShape.mk [n], TensorShape.mk [n, n]]
  else
    return [TensorShape.mk [n]]

/-- The description of the first check of `ValidateInputMatrixShapes`. -/
def countMessage (size : Nat) : List MsgArg :=
  [MsgArg.str "Expected two input matrices, got %d.", MsgArg.num size]

/-- The description of the second check of `ValidateInputMatrixShapes`. -/
def sameShapeMessage : List MsgArg :=
  [MsgArg.str "Inputs (a and b) must have the same shape."]

/-- The description of the third check of `ValidateInputMatrixShapes`. -/
def squareMessage : List MsgArg :=
  [MsgArg.str "Inputs must be a square matrices."]

/-- The override `ValidateInputMatrixShapes`: three `OP_REQUIRES` in sequence, each
recording its failure and returning when its condition is false. -/
def ValidateInputMatrixShapes (context : OpKernelContext)
    (input_matrix_shapes : List TensorShape) : Option OpKernelContext :=
  if ¬ (input_matrix_shapes.length = 2) then
    some (context.CtxFailure (errors.InvalidArgument (countMessage input_matrix_shapes.length)))
  else do
    let shape0 ← input_matrix_shapes[0]?
    let shape1 ← input_matrix_shapes[1]?
    if ¬ (shape0 = shape1) then
      some (context.CtxFailure (errors.InvalidArgument sameShapeMessage))
    else
      if ¬ (TensorShapeUtils.IsSquareMatrix shape0 = true) then
        some (context.CtxFailure (errors.InvalidArgument squareMessage))
      else
        some context

/-- The string literal of the failure of `ComputeMatrix`: three adjacent literals, which
the compiler joins with nothing in between. -/
def decompositionMessage : String :=
  "Generalized Self Adjoint Eigen decomposition" ++
  "was not successful." ++
  "The input might not be valid."

/-- The option handed to the solver: `compute_v_ ? ComputeEigenvectors : EigenvaluesOnly`. -/
def solverOptions (compute_v_ : Bool) : DecompositionOptions :=
  if compute_v_ then DecompositionOptions.ComputeEigenvectors
  else DecompositionOptions.EigenvaluesOnly

/-- The override `ComputeMatrix`, for a kernel built with attribute `compute_v_`. -/
def ComputeMatrix {Scalar : Type} (solver : SolverConstructor Scalar) (compute_v_ : Bool)
    (st : KernelState Scalar) (inputs : List (Matrix Scalar)) :
    Option (KernelState Scalar) := do
  let input0 ← inputs[0]?
  let rows := input0.rows
  if rows = 0 then
    return st
  else
    let input1 ← inputs[1]?
    let eig := solver input0 input1 (solverOptions compute_v_)
    let st1 := { st with solves := st.solves ++ [solverOptions compute_v_] }
    if ¬ (eig.info = ComputationInfo.Success) then
      return { st1 with
        context := st1.context.CtxFailure
          (errors.InvalidArgument [MsgArg.str decompositionMessage]) }
    else
      let st2 ← st1.assignOutput 0 eig.eigenvalues
      if compute_v_ then
        st2.assignOutput 1 eig.eigenvectors
      else
        return st2

/-- The text the specification gives for the failure of the decomposition (section 4.2). -/
def specDecompositionMessage : String :=
  "generalized eigendecomposition was not successful; input may not be valid."

/-- The failure `ComputeMatrix` hands to the context when the solver does not succeed. -/
def decompositionFailure : Status :=
  errors.InvalidArgument [MsgArg.str decompositionMessage]

/-! ## Concrete data for the instances -/

/-- A stand-in solver over integer matrices: it succeeds exactly when the first
coefficient of `matB` is positive, and then reports the first `rows` coefficients of
`matA` as eigenvalues and the coefficients of `matB` as eigenvectors. -/
def sampleSolver : SolverConstructor Int :=
  fun matA matB _ =>
    { info :=
        match matB.coeffs with
        | [] => ComputationInfo.InvalidInput
        | b :: _ => if 0 < b then ComputationInfo.Success else ComputationInfo.NumericalIssue
      eigenvalues := { rows := matA.rows, cols := 1, coeffs := matA.coeffs.take matA.rows }
      eigenvectors := { rows := matA.rows, cols := matA.cols, coeffs := matB.coeffs } }

/-- The 2 x 2 matrix with diagonal 2, 3. -/
def sampleA : Matrix Int :=
  { rows := 2, cols := 2, coeffs := [2, 0, 0, 3] }

/-- The 2 x 2 identity. -/
def sampleB : Matrix Int :=
  { rows := 2, cols := 2, coeffs := [1, 0, 0, 1] }

/-- A 2 x 2 matrix with a negative diagonal entry, on which `sampleSolver` fails. -/
def sampleBadB : Matrix Int :=
  { rows := 2, cols := 2, coeffs := [-1, 0, 0, 1] }

/-- The empty 0 x 0 matrix. -/
def sampleEmpty : Matrix Int :=
  { rows := 0, cols := 0, coeffs := [] }

/-- A zero-filled buffer of the given extents. -/
def zeroBuffer (rows cols : Nat) : Matrix Int :=
  { rows := rows, cols := cols, coeffs := List.replicate (rows * cols) 0 }

/-- A fresh state: no failure recorded, the given buffers, no solver built, no write. -/
def freshState (outputs : List (Matrix Int)) : KernelState Int :=
  { context := { failures := [] }, outputs := outputs, solves := [], writes := [] }

/-! ## Auxiliary facts -/

theorem IsSquareMatrix_iff (shape : TensorShape) :
    TensorShapeUtils.IsSquareMatrix shape = true ↔ ∃ n, shape = TensorShape.mk [n, n] := by
  obtain ⟨dims⟩ := shape
  constructor
  · intro h
    match dims, h with
    | [a, b], h =>
      simp [TensorShapeUtils.IsSquareMatrix, TensorShape.dims, TensorShape.dim_size] at h
      exact ⟨a, by simp [h]⟩
    | [], h => simp [TensorShapeUtils.IsSquareMatrix, TensorShape.dims] at h
    | [_], h => simp [TensorShapeUtils.IsSquareMatrix, TensorShape.dims] at h
    | _ :: _ :: _ :: _, h => simp [TensorShapeUtils.IsSquareMatrix, TensorShape.dims] at h
  · rintro ⟨n, hn⟩
    cases hn
    simp [TensorShapeUtils.IsSquareMatrix, TensorShape.dims, TensorShape.dim_size]

theorem CtxFailure_ne (context : OpKernelContext) (s : Status) :
    context.CtxFailure s ≠ context := by
  intro h
  have hlen := congrArg (fun c => c.failures.length) h
  simp [OpKernelContext.CtxFailure] at hlen

theorem length_two {α : Type} (l : List α) (h : l.length = 2) : ∃ a b, l = [a, b] := by
  match l, h with
  | [a, b], _ => exact ⟨a, b, rfl⟩

theorem Validate_pair (context : OpKernelContext) (a b : TensorShape) :
    ValidateInputMatrixShapes context [a, b] =
      if ¬ (a = b) then
        some (context.CtxFailure (errors.InvalidArgument sameShapeMessage))
      else if ¬ (TensorShapeUtils.IsSquareMatrix a = true) then
        some (context.CtxFailure (errors.InvalidArgument squareMessage))
      else some context := by
  simp [ValidateInputMatrixShapes]

theorem CtxFailure_inj (context : OpKernelContext) (s t : Status)
    (h : context.CtxFailure s = context.CtxFailure t) : s = t := by
  have hf := congrArg OpKernelContext.failures h
  simpa [OpKernelContext.CtxFailure] using hf

theorem ComputeMatrix_rows_zero {Scalar : Type} (solver : SolverConstructor Scalar)
    (compute_v_ : Bool) (st : KernelState Scalar) (matA : Matrix Scalar)
    (rest : List (Matrix Scalar)) (hrows : matA.rows = 0) :
    ComputeMatrix solver compute_v_ st (matA :: rest) = some st := by
  simp [ComputeMatrix, hrows]

theorem ComputeMatrix_not_success {Scalar : Type} (solver : SolverConstructor Scalar)
    (compute_v_ : Bool) (st : KernelState Scalar) (matA matB : Matrix Scalar)
    (rest : List (Matrix Scalar)) (hrows : matA.rows ≠ 0)
    (hinfo : (solver matA matB (solverOptions compute_v_)).info ≠ ComputationInfo.Success) :
    ComputeMatrix solver compute_v_ st (matA :: matB :: rest) =
      some { st with
        context := st.context.CtxFailure decompositionFailure
        solves := st.solves ++ [solverOptions compute_v_] } := by
  simp [ComputeMatrix, hrows, hinfo, decompositionFailure]

theorem ComputeMatrix_success_values {Scalar : Type} (solver : SolverConstructor Scalar)
    (st : KernelState Scalar) (matA matB : Matrix Scalar)
    (rest : List (Matrix Scalar)) (hrows : matA.rows ≠ 0)
    (hinfo : (solver matA matB (solverOptions false)).info = ComputationInfo.Success) :
    ComputeMatrix solver false st (matA :: matB :: rest) =
      if 0 < st.outputs.length then
        some { st with
          outputs := st.outputs.set 0 (solver matA matB (solverOptions false)).eigenvalues
          solves := st.solves ++ [solverOptions false]
          writes := st.writes ++ [0] }
      else none := by
  by_cases h0 : 0 < st.outputs.length
  · simp [ComputeMatrix, hrows, hinfo, KernelState.assignOutput, h0]
  · simp [ComputeMatrix, hrows, hinfo, KernelState.assignOutput, h0]

theorem ComputeMatrix_success_vectors {Scalar : Type} (solver : SolverConstructor Scalar)
    (st : KernelState Scalar) (matA matB : Matrix Scalar)
    (rest : List (Matrix Scalar)) (hrows : matA.rows ≠ 0)
    (hinfo : (solver matA matB (solverOptions true)).info = ComputationInfo.Success) :
    ComputeMatrix solver true st (matA :: matB :: rest) =
      if 1 < st.outputs.length then
        some { st with
          outputs := (st.outputs.set 0 (solver matA matB (solverOptions true)).eigenvalues).set 1
            (solver matA matB (solverOptions true)).eigenvectors
          solves := st.solves ++ [solverOptions true]
          writes := st.writes ++ [0, 1] }
      else none := by
  by_cases h1 : 1 < st.outputs.length
  · have h0 : 0 < st.outputs.length := by omega
    simp [ComputeMatrix, hrows, hinfo, KernelState.assignOutput, h0, h1]
  · by_cases h0 : 0 < st.outputs.length
    · simp [ComputeMatrix, hrows, hinfo, KernelState.assignOutput, h0, h1]
    · simp [ComputeMatrix, hrows, hinfo, KernelState.assignOutput, h0, h1]

theorem Validate_count (context : OpKernelContext) (shapes : List TensorShape)
    (h : shapes.length ≠ 2) :
    ValidateInputMatrixShapes context shapes =
      some (context.CtxFailure (errors.InvalidArgument (countMessage shapes.length))) := by
  simp [ValidateInputMatrixShapes, h]

/-! ## The shape contract -/

/-- C1: for every list of input shapes whose first shape has first dimension `n`,
`GetOutputMatrixShapes` returns exactly the shapes `[n]` and `[n, n]`, in that order, when
`compute_v_` is true, and exactly the one shape `[n]` when it is false. -/
theorem GetOutputMatrixShapes_exact (input_matrix_shapes : List TensorShape)
    (shape0 : TensorShape) (n : Nat)
    (hfirst : input_matrix_shapes[0]? = some shape0)
    (hdim : shape0.dim_size 0 = some n) :
    GetOutputMatrixShapes true input_matrix_shapes
        = some [TensorShape.mk [n], TensorShape.mk [n, n]] ∧
    GetOutputMatrixShapes false input_matrix_shapes = some [TensorShape.mk [n]] := by
  constructor <;> simp [GetOutputMatrixShapes, hfirst, hdim]

theorem GetOutputMatrixShapes_exact_witness :
    [TensorShape.mk [3, 3], TensorShape.mk [3, 3]][0]? = some (TensorShape.mk [3, 3]) ∧
    (TensorShape.mk [3, 3]).dim_size 0 = some 3 ∧
    GetOutputMatrixShapes true [TensorShape.mk [3, 3], TensorShape.mk [3, 3]]
        = some [TensorShape.mk [3], TensorShape.mk [3, 3]] ∧
    GetOutputMatrixShapes false [TensorShape.mk [3, 3], TensorShape.mk [3, 3]]
        = some [TensorShape.mk [3]] :=
  ⟨rfl, rfl,
    GetOutputMatrixShapes_exact [TensorShape.mk [3, 3], TensorShape.mk [3, 3]]
      (TensorShape.mk [3, 3]) 3 rfl rfl⟩

/-! ## Validation -/

/-- C2: for every list of input shapes, `ValidateInputMatrixShapes` records a failure of
kind `InvalidArgument` if and only if one of the three requirements is violated (the list
has exactly two shapes, the two shapes are identical, the shared shape is a square
matrix, i.e. of rank 2 with equal extents); it leaves the context without any new failure
if and only if all three hold. -/
theorem ValidateInputMatrixShapes_fails_iff (context : OpKernelContext)
    (input_matrix_shapes : List TensorShape) :
    ((∃ status, status.code = ErrorKind.InvalidArgument ∧
        ValidateInputMatrixShapes context input_matrix_shapes
          = some (context.CtxFailure status)) ↔
      ¬ (input_matrix_shapes.length = 2 ∧
         input_matrix_shapes[0]? = input_matrix_shapes[1]? ∧
         ∃ n, input_matrix_shapes[0]? = some (TensorShape.mk [n, n]))) ∧
    (ValidateInputMatrixShapes context input_matrix_shapes = some context ↔
      (input_matrix_shapes.length = 2 ∧
       input_matrix_shapes[0]? = input_matrix_shapes[1]? ∧
       ∃ n, input_matrix_shapes[0]? = some (TensorShape.mk [n, n]))) := by
  by_cases hlen : input_matrix_shapes.length = 2
  · obtain ⟨a, b, rfl⟩ := length_two input_matrix_shapes hlen
    rw [Validate_pair]
    by_cases hab : a = b
    · subst hab
      by_cases hsq : TensorShapeUtils.IsSquareMatrix a = true
      · have hex := (IsSquareMatrix_iff a).1 hsq
        obtain ⟨n, rfl⟩ := hex
        simp only [hsq, not_true_eq_false, if_false]
        constructor
        · constructor
          · rintro ⟨status, _, h⟩
            exact absurd (Option.some.inj h).symm (CtxFailure_ne context status)
          · intro h
            exact absurd ⟨rfl, rfl, n, rfl⟩ h
        · constructor
          · intro _
            exact ⟨rfl, rfl, n, rfl⟩
          · intro _
            trivial
      · have hno : ¬ ∃ n, a = TensorShape.mk [n, n] := fun h => hsq ((IsSquareMatrix_iff a).2 h)
        simp only [hsq, not_true_eq_false, not_false_eq_true, if_true, if_false]
        constructor
        · constructor
          · intro _
            rintro ⟨_, _, n, hn⟩
            exact hno ⟨n, by simpa using hn⟩
          · intro _
            exact ⟨errors.InvalidArgument squareMessage, rfl, rfl⟩
        · constructor
          · intro h
            exact absurd (Option.some.inj h) (CtxFailure_ne context _)
          · rintro ⟨_, _, n, hn⟩
            exact absurd ⟨n, by simpa using hn⟩ hno
    · simp only [hab, not_false_eq_true, if_true]
      constructor
      · constructor
        · intro _
          rintro ⟨_, h, _⟩
          exact hab (by simpa using h)
        · intro _
          exact ⟨errors.InvalidArgument sameShapeMessage, rfl, rfl⟩
      · constructor
        · intro h
          exact absurd (Option.some.inj h) (CtxFailure_ne context _)
        · rintro ⟨_, h, _⟩
          exact absurd (by simpa using h) hab
  · rw [Validate_count context input_matrix_shapes hlen]
    constructor
    · constructor
      · intro _
        rintro ⟨h, _⟩
        exact hlen h
      · intro _
        exact ⟨errors.InvalidArgument (countMessage input_matrix_shapes.length), rfl, rfl⟩
    · constructor
      · intro h
        exact absurd (Option.some.inj h) (CtxFailure_ne context _)
      · rintro ⟨h, _⟩
        exact absurd h hlen

/-- C8: the failure recorded by `ValidateInputMatrixShapes` is the one of the first
violated check, in the order count, same shape, square, and it is the only failure
recorded: a list whose length is not 2 gets the count description (with a defined result,
although the list may have no element to index), two unequal shapes get the same-shape
description whether or not they are square, and a pair of one non-square shape gets the
square description. The three descriptions differ from one another. -/
theorem ValidateInputMatrixShapes_first_violation (context : OpKernelContext) :
    (∀ input_matrix_shapes : List TensorShape, input_matrix_shapes.length ≠ 2 →
      ValidateInputMatrixShapes context input_matrix_shapes
        = some (context.CtxFailure
            (errors.InvalidArgument (countMessage input_matrix_shapes.length)))) ∧
    (∀ a b : TensorShape, a ≠ b →
      ValidateInputMatrixShapes context [a, b]
        = some (context.CtxFailure (errors.InvalidArgument sameShapeMessage))) ∧
    (∀ a : TensorShape, (¬ ∃ n, a = TensorShape.mk [n, n]) →
      ValidateInputMatrixShapes context [a, a]
        = some (context.CtxFailure (errors.InvalidArgument squareMessage))) ∧
    (∀ size, countMessage size ≠ sameShapeMessage ∧ countMessage size ≠ squareMessage) ∧
    sameShapeMessage ≠ squareMessage := by
  refine ⟨fun shapes h => Validate_count context shapes h, ?_, ?_, ?_, ?_⟩
  · intro a b hab
    rw [Validate_pair]
    simp [hab]
  · intro a hno
    have hsq : ¬ (TensorShapeUtils.IsSquareMatrix a = true) :=
      fun h => hno ((IsSquareMatrix_iff a).1 h)
    rw [Validate_pair]
    simp [hsq]
  · intro size
    constructor <;> simp [countMessage, sameShapeMessage, squareMessage]
  · simp only [sameShapeMessage, squareMessage]
    decide

theorem ValidateInputMatrixShapes_first_violation_witness :
    ValidateInputMatrixShapes { failures := [] } []
        = some { failures := [errors.InvalidArgument (countMessage 0)] } ∧
    ValidateInputMatrixShapes { failures := [] } [TensorShape.mk [2, 3], TensorShape.mk [4, 5]]
        = some { failures := [errors.InvalidArgument sameShapeMessage] } ∧
    ValidateInputMatrixShapes { failures := [] } [TensorShape.mk [2, 3], TensorShape.mk [2, 3]]
        = some { failures := [errors.InvalidArgument squareMessage] } :=
  ⟨(ValidateInputMatrixShapes_first_violation { failures := [] }).1 [] (by decide),
   (ValidateInputMatrixShapes_first_violation { failures := [] }).2.1
      (TensorShape.mk [2, 3]) (TensorShape.mk [4, 5]) (by decide),
   (ValidateInputMatrixShapes_first_violation { failures := [] }).2.2.1
      (TensorShape.mk [2, 3]) (by
        rintro ⟨n, hn⟩
        simp at hn
        omega)⟩

/-! ## The computation on one pair -/

/-- C4: for every input pair whose first matrix has 0 rows, in either mode,
`ComputeMatrix` returns the state it was given: no failure is recorded, no solver is
constructed, no output is assigned and the output buffers are as they were. The buffers
the shape contract sizes for such a pair are empty: every shape `GetOutputMatrixShapes`
returns has no element. -/
theorem ComputeMatrix_empty_input {Scalar : Type} (solver : SolverConstructor Scalar)
    (compute_v_ : Bool) (st : KernelState Scalar) (matA matB : Matrix Scalar)
    (hrows : matA.rows = 0) :
    ComputeMatrix solver compute_v_ st [matA, matB] = some st ∧
    ∃ shapes, GetOutputMatrixShapes compute_v_
        [TensorShape.mk [matA.rows, matA.cols], TensorShape.mk [matB.rows, matB.cols]]
          = some shapes ∧
      ∀ shape ∈ shapes, shape.num_elements = 0 := by
  refine ⟨ComputeMatrix_rows_zero solver compute_v_ st matA [matB] hrows, ?_⟩
  cases compute_v_
  · exact ⟨[TensorShape.mk [0]],
      by simp [GetOutputMatrixShapes, TensorShape.dim_size, hrows],
      by simp [TensorShape.num_elements]⟩
  · exact ⟨[TensorShape.mk [0], TensorShape.mk [0, 0]],
      by simp [GetOutputMatrixShapes, TensorShape.dim_size, hrows],
      by simp [TensorShape.num_elements]⟩

theorem ComputeMatrix_empty_input_witness :
    sampleEmpty.rows = 0 ∧
    (ComputeMatrix sampleSolver true (freshState [zeroBuffer 0 1, zeroBuffer 0 0])
        [sampleEmpty, sampleEmpty]
      = some (freshState [zeroBuffer 0 1, zeroBuffer 0 0]) ∧
    ∃ shapes, GetOutputMatrixShapes true
        [TensorShape.mk [sampleEmpty.rows, sampleEmpty.cols],
         TensorShape.mk [sampleEmpty.rows, sampleEmpty.cols]] = some shapes ∧
      ∀ shape ∈ shapes, shape.num_elements = 0) :=
  ⟨rfl, ComputeMatrix_empty_input sampleSolver true
    (freshState [zeroBuffer 0 1, zeroBuffer 0 0]) sampleEmpty sampleEmpty rfl⟩

/-- C5: for every input pair with `n > 0` on which the solver reports success, and output
buffers allocated for the mode (one buffer, two when `compute_v_` is true),
`ComputeMatrix` returns a state in which output 0 is exactly the eigenvalues of the
solver; output 1 is exactly its eigenvectors when `compute_v_` is true, and every output
other than output 0 is unchanged when `compute_v_` is false (every output other than 0
and 1 when it is true). Exactly one solver is constructed, and its option is
`ComputeEigenvectors` exactly when `compute_v_` is true. -/
theorem ComputeMatrix_success_outputs {Scalar : Type} (solver : SolverConstructor Scalar)
    (compute_v_ : Bool) (st : KernelState Scalar) (matA matB : Matrix Scalar)
    (hrows : 0 < matA.rows)
    (hinfo : (solver matA matB (solverOptions compute_v_)).info = ComputationInfo.Success)
    (hbuf0 : 0 < st.outputs.length)
    (hbuf1 : compute_v_ = true → 1 < st.outputs.length) :
    ∃ st1, ComputeMatrix solver compute_v_ st [matA, matB] = some st1 ∧
      st1.outputs[0]? = some (solver matA matB (solverOptions compute_v_)).eigenvalues ∧
      (compute_v_ = true →
        st1.outputs[1]? = some (solver matA matB (solverOptions compute_v_)).eigenvectors ∧
        ∀ i, 2 ≤ i → st1.outputs[i]? = st.outputs[i]?) ∧
      (compute_v_ = false → ∀ i, i ≠ 0 → st1.outputs[i]? = st.outputs[i]?) ∧
      st1.outputs.length = st.outputs.length ∧
      st1.solves = st.solves ++ [solverOptions compute_v_] ∧
      (solverOptions compute_v_ = DecompositionOptions.ComputeEigenvectors ↔
        compute_v_ = true) := by
  have hrows0 : matA.rows ≠ 0 := by omega
  cases compute_v_
  · rw [ComputeMatrix_success_values solver st matA matB [] hrows0 hinfo]
    simp only [hbuf0, if_true]
    refine ⟨_, rfl, ?_, ?_, ?_, ?_, rfl, ?_⟩
    · simp [hbuf0]
    · intro h
      cases h
    · intro _ i hi
      simp [List.getElem?_set, Ne.symm hi]
    · simp
    · simp [solverOptions]
  · have h1 : 1 < st.outputs.length := hbuf1 rfl
    rw [ComputeMatrix_success_vectors solver st matA matB [] hrows0 hinfo]
    simp only [h1, if_true]
    refine ⟨_, rfl, ?_, ?_, ?_, ?_, rfl, ?_⟩
    · simp [List.getElem?_set, hbuf0]
    · intro _
      constructor
      · simp [List.getElem?_set, h1]
      · intro i hi
        have hi0 : ¬ (0 = i) := by omega
        have hi1 : ¬ (1 = i) := by omega
        simp [List.getElem?_set, hi0, hi1]
    · intro h
      cases h
    · simp
    · simp [solverOptions]

theorem ComputeMatrix_success_outputs_witness :
    0 < sampleA.rows ∧
    (sampleSolver sampleA sampleB (solverOptions true)).info = ComputationInfo.Success ∧
    ∃ st1, ComputeMatrix sampleSolver true (freshState [zeroBuffer 2 1, zeroBuffer 2 2])
        [sampleA, sampleB] = some st1 ∧
      st1.outputs[0]? = some (sampleSolver sampleA sampleB (solverOptions true)).eigenvalues ∧
      (true = true →
        st1.outputs[1]?
          = some (sampleSolver sampleA sampleB (solverOptions true)).eigenvectors ∧
        ∀ i, 2 ≤ i →
          st1.outputs[i]? = (freshState [zeroBuffer 2 1, zeroBuffer 2 2]).outputs[i]?) ∧
      (true = false → ∀ i, i ≠ 0 →
        st1.outputs[i]? = (freshState [zeroBuffer 2 1, zeroBuffer 2 2]).outputs[i]?) ∧
      st1.outputs.length = (freshState [zeroBuffer 2 1, zeroBuffer 2 2]).outputs.length ∧
      st1.solves
        = (freshState [zeroBuffer 2 1, zeroBuffer 2 2]).solves ++ [solverOptions true] ∧
      (solverOptions true = DecompositionOptions.ComputeEigenvectors ↔ true = true) :=
  ⟨by decide, by decide,
    ComputeMatrix_success_outputs sampleSolver true
      (freshState [zeroBuffer 2 1, zeroBuffer 2 2]) sampleA sampleB
      (by decide) (by decide) (by decide) (fun _ => by decide)⟩

/-- C6: for every input pair with `n > 0` (the only pairs on which a solver is
constructed) whose solver reports non-success, `ComputeMatrix` records a failure on the
context, so that the context differs from the one it was given, and leaves the output
buffers and the log of assignments exactly as they were. Conversely, when the solver
reports success and the buffers for the mode are allocated, `ComputeMatrix` returns with
the context it was given, and no call that returns on a success records a failure. -/
theorem ComputeMatrix_failure_frame {Scalar : Type} (solver : SolverConstructor Scalar)
    (compute_v_ : Bool) (st : KernelState Scalar) (matA matB : Matrix Scalar)
    (hrows : 0 < matA.rows) :
    ((solver matA matB (solverOptions compute_v_)).info ≠ ComputationInfo.Success →
      ∃ st1 status, ComputeMatrix solver compute_v_ st [matA, matB] = some st1 ∧
        st1.context = st.context.CtxFailure status ∧
        st1.context ≠ st.context ∧
        st1.outputs = st.outputs ∧
        st1.writes = st.writes) ∧
    ((solver matA matB (solverOptions compute_v_)).info = ComputationInfo.Success →
      (∀ st1, ComputeMatrix solver compute_v_ st [matA, matB] = some st1 →
        st1.context = st.context) ∧
      (0 < st.outputs.length → (compute_v_ = true → 1 < st.outputs.length) →
        ∃ st1, ComputeMatrix solver compute_v_ st [matA, matB] = some st1 ∧
          st1.context = st.context)) := by
  have hrows0 : matA.rows ≠ 0 := by omega
  constructor
  · intro hinfo
    rw [ComputeMatrix_not_success solver compute_v_ st matA matB [] hrows0 hinfo]
    exact ⟨_, decompositionFailure, rfl, rfl, CtxFailure_ne _ _, rfl, rfl⟩
  · intro hinfo
    cases compute_v_
    · rw [ComputeMatrix_success_values solver st matA matB [] hrows0 hinfo]
      constructor
      · intro st1 h
        by_cases h0 : 0 < st.outputs.length
        · simp only [h0, if_true] at h
          cases h
          rfl
        · simp [h0] at h
      · intro h0 _
        simp only [h0, if_true]
        exact ⟨_, rfl, rfl⟩
    · rw [ComputeMatrix_success_vectors solver st matA matB [] hrows0 hinfo]
      constructor
      · intro st1 h
        by_cases h1 : 1 < st.outputs.length
        · simp only [h1, if_true] at h
          cases h
          rfl
        · simp [h1] at h
      · intro _ h1
        simp only [h1 rfl, if_true]
        exact ⟨_, rfl, rfl⟩

theorem ComputeMatrix_failure_frame_witness :
    0 < sampleA.rows ∧
    (sampleSolver sampleA sampleBadB (solverOptions true)).info ≠ ComputationInfo.Success ∧
    ∃ st1 status,
      ComputeMatrix sampleSolver true (freshState [zeroBuffer 2 1, zeroBuffer 2 2])
        [sampleA, sampleBadB] = some st1 ∧
      st1.context = (freshState [zeroBuffer 2 1, zeroBuffer 2 2]).context.CtxFailure status ∧
      st1.context ≠ (freshState [zeroBuffer 2 1, zeroBuffer 2 2]).context ∧
      st1.outputs = (freshState [zeroBuffer 2 1, zeroBuffer 2 2]).outputs ∧
      st1.writes = (freshState [zeroBuffer 2 1, zeroBuffer 2 2]).writes :=
  ⟨by decide, by decide,
    (ComputeMatrix_failure_frame sampleSolver true
      (freshState [zeroBuffer 2 1, zeroBuffer 2 2]) sampleA sampleBadB (by decide)).1
      (by decide)⟩

/-! ## The failure of the decomposition -/

theorem Validate_result (context : OpKernelContext) (input_matrix_shapes : List TensorShape) :
    ValidateInputMatrixShapes context input_matrix_shapes = some context ∨
    ∃ args, ValidateInputMatrixShapes context input_matrix_shapes
      = some (context.CtxFailure (errors.InvalidArgument args)) := by
  by_cases hlen : input_matrix_shapes.length = 2
  · obtain ⟨a, b, rfl⟩ := length_two input_matrix_shapes hlen
    rw [Validate_pair]
    by_cases hab : a = b
    · subst hab
      by_cases hsq : TensorShapeUtils.IsSquareMatrix a = true
      · left
        simp [hsq]
      · right
        exact ⟨squareMessage, by simp [hsq]⟩
    · right
      exact ⟨sameShapeMessage, by simp [hab]⟩
  · right
    exact ⟨_, Validate_count context input_matrix_shapes hlen⟩

/-- C3, as the code has it: the failure recorded when the solver reports non-success on a
pair with `n > 0` is of kind `InvalidArgument`, not `NumericalFailure`, and it is the kind
of every failure `ValidateInputMatrixShapes` records for a shape violation. -/
theorem ComputeMatrix_failure_kind {Scalar : Type} (solver : SolverConstructor Scalar)
    (compute_v_ : Bool) (st : KernelState Scalar) (matA matB : Matrix Scalar)
    (hrows : 0 < matA.rows)
    (hinfo : (solver matA matB (solverOptions compute_v_)).info ≠ ComputationInfo.Success) :
    ∃ st1 status, ComputeMatrix solver compute_v_ st [matA, matB] = some st1 ∧
      st1.context = st.context.CtxFailure status ∧
      status.code = ErrorKind.InvalidArgument ∧
      status.code ≠ ErrorKind.NumericalFailure ∧
      ∀ (context : OpKernelContext) (input_matrix_shapes : List TensorShape)
        (violation : Status),
        ValidateInputMatrixShapes context input_matrix_shapes
          = some (context.CtxFailure violation) →
        violation.code = status.code := by
  have hrows0 : matA.rows ≠ 0 := by omega
  rw [ComputeMatrix_not_success solver compute_v_ st matA matB [] hrows0 hinfo]
  refine ⟨_, decompositionFailure, rfl, rfl, rfl, ?_, ?_⟩
  · simp [decompositionFailure, errors.InvalidArgument]
  · intro context shapes violation hv
    rcases Validate_result context shapes with h | ⟨args, h⟩
    · rw [h] at hv
      exact absurd (Option.some.inj hv).symm (CtxFailure_ne context violation)
    · rw [h] at hv
      have := CtxFailure_inj context _ _ (Option.some.inj hv)
      rw [← this]
      rfl

theorem ComputeMatrix_failure_kind_witness :
    0 < sampleA.rows ∧
    (sampleSolver sampleA sampleBadB (solverOptions false)).info ≠ ComputationInfo.Success ∧
    ∃ st1 status,
      ComputeMatrix sampleSolver false (freshState [zeroBuffer 2 1])
        [sampleA, sampleBadB] = some st1 ∧
      st1.context = (freshState [zeroBuffer 2 1]).context.CtxFailure status ∧
      status.code = ErrorKind.InvalidArgument ∧
      status.code ≠ ErrorKind.NumericalFailure ∧
      ∀ (context : OpKernelContext) (input_matrix_shapes : List TensorShape)
        (violation : Status),
        ValidateInputMatrixShapes context input_matrix_shapes
          = some (context.CtxFailure violation) →
        violation.code = status.code :=
  ⟨by decide, by decide,
    ComputeMatrix_failure_kind sampleSolver false (freshState [zeroBuffer 2 1])
      sampleA sampleBadB (by decide) (by decide)⟩

/-- C3 as the specification states it fails: on the pair `sampleA`, `sampleBadB`, whose
second matrix has a negative diagonal entry and on which the solver reports a numerical
issue, the one failure `ComputeMatrix` records is of kind `InvalidArgument`; no failure of
kind `NumericalFailure` is recorded. -/
theorem ComputeMatrix_failure_kind_counterexample :
    (sampleSolver sampleA sampleBadB (solverOptions false)).info
      = ComputationInfo.NumericalIssue ∧
    (ComputeMatrix sampleSolver false (freshState [zeroBuffer 2 1])
        [sampleA, sampleBadB]).map (fun st1 => st1.context.failures.map Status.code)
      = some [ErrorKind.InvalidArgument] ∧
    ¬ ∃ st1 status,
      ComputeMatrix sampleSolver false (freshState [zeroBuffer 2 1])
        [sampleA, sampleBadB] = some st1 ∧
      status ∈ st1.context.failures ∧
      status.code = ErrorKind.NumericalFailure := by
  have hrun : ComputeMatrix sampleSolver false (freshState [zeroBuffer 2 1])
      [sampleA, sampleBadB]
      = some { freshState [zeroBuffer 2 1] with
          context := (freshState [zeroBuffer 2 1]).context.CtxFailure decompositionFailure
          solves := (freshState [zeroBuffer 2 1]).solves ++ [solverOptions false] } :=
    ComputeMatrix_not_success sampleSolver false (freshState [zeroBuffer 2 1])
      sampleA sampleBadB [] (by decide) (by decide)
  refine ⟨by decide, ?_, ?_⟩
  · rw [hrun]
    rfl
  · rintro ⟨st1, status, h, hmem, hcode⟩
    rw [hrun] at h
    cases h
    simp [freshState, OpKernelContext.CtxFailure, decompositionFailure,
      errors.InvalidArgument] at hmem
    rw [hmem] at hcode
    cases hcode

/-- C9, as the code has it: there is one fixed text, which begins
"Generalized Self Adjoint Eigen decomposition", contains "was not successful.", ends
"The input might not be valid." and is not the text of the specification, such that
whenever the solver reports non-success on a pair with `n > 0`, in either mode, the
failure `ComputeMatrix` records is described by exactly that text. -/
theorem ComputeMatrix_failure_message :
    ∃ text : String,
      "Generalized Self Adjoint Eigen decomposition".data <+: text.data ∧
      "was not successful.".data <:+: text.data ∧
      "The input might not be valid.".data <:+ text.data ∧
      text ≠ specDecompositionMessage ∧
      ∀ (Scalar : Type) (solver : SolverConstructor Scalar) (compute_v_ : Bool)
        (st : KernelState Scalar) (matA matB : Matrix Scalar),
        0 < matA.rows →
        (solver matA matB (solverOptions compute_v_)).info ≠ ComputationInfo.Success →
        ∃ st1, ComputeMatrix solver compute_v_ st [matA, matB] = some st1 ∧
          st1.context = st.context.CtxFailure (errors.InvalidArgument [MsgArg.str text]) := by
  refine ⟨decompositionMessage, ?_, ?_, ?_, ?_, ?_⟩
  · exact ⟨("was not successful." ++ "The input might not be valid.").data, by decide⟩
  · exact ⟨"Generalized Self Adjoint Eigen decomposition".data,
      "The input might not be valid.".data, by decide⟩
  · exact ⟨("Generalized Self Adjoint Eigen decomposition" ++ "was not successful.").data,
      by decide⟩
  · decide
  · intro Scalar solver compute_v_ st matA matB hrows hinfo
    have hrows0 : matA.rows ≠ 0 := by omega
    rw [ComputeMatrix_not_success solver compute_v_ st matA matB [] hrows0 hinfo]
    exact ⟨_, rfl, rfl⟩

theorem ComputeMatrix_failure_message_witness :
    0 < sampleA.rows ∧
    (sampleSolver sampleA sampleBadB (solverOptions true)).info ≠ ComputationInfo.Success ∧
    ∃ text : String,
      "Generalized Self Adjoint Eigen decomposition".data <+: text.data ∧
      "The input might not be valid.".data <:+ text.data ∧
      ∃ st1, ComputeMatrix sampleSolver true (freshState [zeroBuffer 2 1, zeroBuffer 2 2])
          [sampleA, sampleBadB] = some st1 ∧
        st1.context = (freshState [zeroBuffer 2 1, zeroBuffer 2 2]).context.CtxFailure
          (errors.InvalidArgument [MsgArg.str text]) :=
  ⟨by decide, by decide,
    match ComputeMatrix_failure_message with
    | ⟨text, hpre, _, hsuf, _, hall⟩ =>
      ⟨text, hpre, hsuf,
        hall Int sampleSolver true (freshState [zeroBuffer 2 1, zeroBuffer 2 2])
          sampleA sampleBadB (by decide) (by decide)⟩⟩

/-- C9 as the specification states it fails: on the pair `sampleA`, `sampleBadB`, on
which the solver reports non-success, the failure `ComputeMatrix` records is described by
the literal of the kernel, which is not the text
"generalized eigendecomposition was not successful; input may not be valid.". -/
theorem ComputeMatrix_failure_message_counterexample :
    (sampleSolver sampleA sampleBadB (solverOptions true)).info ≠ ComputationInfo.Success ∧
    (ComputeMatrix sampleSolver true (freshState [zeroBuffer 2 1, zeroBuffer 2 2])
        [sampleA, sampleBadB]).map (fun st1 => st1.context.failures.map Status.args)
      = some [[MsgArg.str decompositionMessage]] ∧
    decompositionMessage ≠ specDecompositionMessage ∧
    ¬ ∃ st1 status,
      ComputeMatrix sampleSolver true (freshState [zeroBuffer 2 1, zeroBuffer 2 2])
        [sampleA, sampleBadB] = some st1 ∧
      status ∈ st1.context.failures ∧
      status.args = [MsgArg.str specDecompositionMessage] := by
  have hrun : ComputeMatrix sampleSolver true (freshState [zeroBuffer 2 1, zeroBuffer 2 2])
      [sampleA, sampleBadB]
      = some { freshState [zeroBuffer 2 1, zeroBuffer 2 2] with
          context := (freshState [zeroBuffer 2 1, zeroBuffer 2 2]).context.CtxFailure
            decompositionFailure
          solves := (freshState [zeroBuffer 2 1, zeroBuffer 2 2]).solves
            ++ [solverOptions true] } :=
    ComputeMatrix_not_success sampleSolver true (freshState [zeroBuffer 2 1, zeroBuffer 2 2])
      sampleA sampleBadB [] (by decide) (by decide)
  have hne : decompositionMessage ≠ specDecompositionMessage := by decide
  refine ⟨by decide, ?_, hne, ?_⟩
  · rw [hrun]
    rfl
  · rintro ⟨st1, status, h, hmem, hargs⟩
    rw [hrun] at h
    cases h
    simp [freshState, OpKernelContext.CtxFailure, decompositionFailure,
      errors.InvalidArgument] at hmem
    rw [hmem] at hargs
    simp at hargs
    exact hne hargs

/-! ## Agreement of the shape query with the computation -/

theorem Validate_accepts (context : OpKernelContext) (input_matrix_shapes : List TensorShape)
    (hacc : ValidateInputMatrixShapes context input_matrix_shapes = some context) :
    ∃ n, input_matrix_shapes = [TensorShape.mk [n, n], TensorShape.mk [n, n]] := by
  by_cases hlen : input_matrix_shapes.length = 2
  · obtain ⟨a, b, rfl⟩ := length_two input_matrix_shapes hlen
    rw [Validate_pair] at hacc
    by_cases hab : a = b
    · subst hab
      by_cases hsq : TensorShapeUtils.IsSquareMatrix a = true
      · obtain ⟨n, rfl⟩ := (IsSquareMatrix_iff a).1 hsq
        exact ⟨n, rfl⟩
      · simp only [hsq, not_true_eq_false, not_false_eq_true, if_true, if_false] at hacc
        exact absurd (Option.some.inj hacc) (CtxFailure_ne context _)
    · simp only [hab, not_false_eq_true, if_true] at hacc
      exact absurd (Option.some.inj hacc) (CtxFailure_ne context _)
  · rw [Validate_count context input_matrix_shapes hlen] at hacc
    exact absurd (Option.some.inj hacc) (CtxFailure_ne context _)

theorem ComputeMatrix_writes {Scalar : Type} (solver : SolverConstructor Scalar)
    (compute_v_ : Bool) (st st1 : KernelState Scalar) (inputs : List (Matrix Scalar))
    (h : ComputeMatrix solver compute_v_ st inputs = some st1) :
    st1.writes = st.writes ∨
    (compute_v_ = false ∧ st1.writes = st.writes ++ [0]) ∨
    (compute_v_ = true ∧ st1.writes = st.writes ++ [0, 1]) := by
  match inputs, h with
  | [], h => simp [ComputeMatrix] at h
  | matA :: rest, h =>
    by_cases hrows : matA.rows = 0
    · rw [ComputeMatrix_rows_zero solver compute_v_ st matA rest hrows] at h
      cases h
      exact Or.inl rfl
    · match rest, h with
      | [], h => simp [ComputeMatrix, hrows] at h
      | matB :: rest, h =>
        by_cases hinfo :
            (solver matA matB (solverOptions compute_v_)).info = ComputationInfo.Success
        · cases compute_v_
          · rw [ComputeMatrix_success_values solver st matA matB rest hrows hinfo] at h
            by_cases h0 : 0 < st.outputs.length
            · simp only [h0, if_true] at h
              cases h
              exact Or.inr (Or.inl ⟨rfl, rfl⟩)
            · simp [h0] at h
          · rw [ComputeMatrix_success_vectors solver st matA matB rest hrows hinfo] at h
            by_cases h1 : 1 < st.outputs.length
            · simp only [h1, if_true] at h
              cases h
              exact Or.inr (Or.inr ⟨rfl, rfl⟩)
            · simp [h1] at h
        · rw [ComputeMatrix_not_success solver compute_v_ st matA matB rest hrows hinfo] at h
          cases h
          exact Or.inl rfl

/-- C10: for every value of `compute_v_` and every list of shapes that
`ValidateInputMatrixShapes` accepts, `GetOutputMatrixShapes` is defined (indexing shape 0
stays in bounds) and returns 2 shapes when `compute_v_` is true and 1 when it is false;
on a successful solve of a pair with `n > 0`, with as many output buffers as shapes were
reported, `ComputeMatrix` assigns exactly the outputs `0, ..., count - 1`, each once; and
no call of `ComputeMatrix`, on any inputs, assigns an output whose index is not below the
number of shapes reported. -/
theorem shape_query_agrees_with_computation {Scalar : Type} (compute_v_ : Bool)
    (context : OpKernelContext) (input_matrix_shapes : List TensorShape)
    (hacc : ValidateInputMatrixShapes context input_matrix_shapes = some context) :
    ∃ reported, GetOutputMatrixShapes compute_v_ input_matrix_shapes = some reported ∧
      reported.length = (if compute_v_ then 2 else 1) ∧
      (∀ (solver : SolverConstructor Scalar) (st : KernelState Scalar)
          (matA matB : Matrix Scalar),
        st.outputs.length = reported.length →
        0 < matA.rows →
        (solver matA matB (solverOptions compute_v_)).info = ComputationInfo.Success →
        ∃ st1, ComputeMatrix solver compute_v_ st [matA, matB] = some st1 ∧
          st1.writes = st.writes ++ List.range reported.length) ∧
      (∀ (solver : SolverConstructor Scalar) (st st1 : KernelState Scalar)
          (inputs : List (Matrix Scalar)),
        ComputeMatrix solver compute_v_ st inputs = some st1 →
        ∃ written, st1.writes = st.writes ++ written ∧
          ∀ i ∈ written, i < reported.length) := by
  obtain ⟨n, rfl⟩ := Validate_accepts context input_matrix_shapes hacc
  cases compute_v_
  · refine ⟨[TensorShape.mk [n]], by simp [GetOutputMatrixShapes, TensorShape.dim_size],
      by simp, ?_, ?_⟩
    · intro solver st matA matB hlen hrows hinfo
      have hrows0 : matA.rows ≠ 0 := by omega
      have h0 : 0 < st.outputs.length := by simp [hlen]
      rw [ComputeMatrix_success_values solver st matA matB [] hrows0 hinfo]
      simp only [h0, if_true]
      exact ⟨_, rfl, by simp [List.range_succ]⟩
    · intro solver st st1 inputs h
      rcases ComputeMatrix_writes solver false st st1 inputs h with hw | ⟨_, hw⟩ | ⟨hc, _⟩
      · exact ⟨[], by simp [hw], by simp⟩
      · exact ⟨[0], hw, by simp⟩
      · cases hc
  · refine ⟨[TensorShape.mk [n], TensorShape.mk [n, n]],
      by simp [GetOutputMatrixShapes, TensorShape.dim_size], by simp, ?_, ?_⟩
    · intro solver st matA matB hlen hrows hinfo
      have hrows0 : matA.rows ≠ 0 := by omega
      have h1 : 1 < st.outputs.length := by simp [hlen]
      rw [ComputeMatrix_success_vectors solver st matA matB [] hrows0 hinfo]
      simp only [h1, if_true]
      exact ⟨_, rfl, by simp [List.range_succ]⟩
    · intro solver st st1 inputs h
      rcases ComputeMatrix_writes solver true st st1 inputs h with hw | ⟨hc, _⟩ | ⟨_, hw⟩
      · exact ⟨[], by simp [hw], by simp⟩
      · cases hc
      · exact ⟨[0, 1], hw, by simp⟩

theorem shape_query_agrees_with_computation_witness :
    ValidateInputMatrixShapes { failures := [] } [TensorShape.mk [2, 2], TensorShape.mk [2, 2]]
      = some { failures := [] } ∧
    ∃ reported,
      GetOutputMatrixShapes true [TensorShape.mk [2, 2], TensorShape.mk [2, 2]]
        = some reported ∧
      reported.length = (if true = true then 2 else 1) ∧
      ∃ st1, ComputeMatrix sampleSolver true (freshState [zeroBuffer 2 1, zeroBuffer 2 2])
          [sampleA, sampleB] = some st1 ∧
        st1.writes = (freshState [zeroBuffer 2 1, zeroBuffer 2 2]).writes
          ++ List.range reported.length :=
  ⟨by decide,
    match shape_query_agrees_with_computation true { failures := [] }
        [TensorShape.mk [2, 2], TensorShape.mk [2, 2]] (by decide) with
    | ⟨reported, hshape, hlen, hrun, _⟩ =>
      ⟨reported, hshape, hlen,
        hrun sampleSolver (freshState [zeroBuffer 2 1, zeroBuffer 2 2]) sampleA sampleB
          (by rw [hlen]; rfl) (by decide) (by decide)⟩⟩

end tensorflow
